import Mathlib

/-!
Verification development for the dompet-platform orchestration core.

Shallow embedding of the TypeScript implementation:
* JavaScript `number` arithmetic is modelled over `ℚ` (values exercised by
  the claims are exact in rationals);
* mutable record updates become functional record updates;
* fallible code returns `Except`;
* external calls (database rows, LLM providers, clocks) become explicit
  parameters or oracle functions threaded through the definitions.

Source files embedded here:
  src/types, src/memory/monthly.ts, src/score/health.ts,
  src/actions/suggest.ts, src/simulator/simulate.ts,
  src/api/vector-store.ts, src/providers/embeddings-router.ts,
  src/mcp/server.ts (performIdempotentOperation), src/orchestrator/index.ts,
  src/api/v1/index.ts (chat followup, CSV upload row handling).
-/

namespace Dompet

/-! ## JavaScript numeric and string primitives -/

/-- `Math.min(Math.max(value, lo), hi)` as used by every `clamp` helper in the
source (memory/monthly.ts, simulator/simulate.ts, score/health.ts). -/
def clamp (value lo hi : ℚ) : ℚ := min (max value lo) hi

/-- `Math.round`: round half toward positive infinity. -/
def jsRound (q : ℚ) : ℤ := ⌊q + 1/2⌋

/-- Digit grouping performed by `Intl.NumberFormat('en-US')`: a comma between
every group of three digits, counted from the right. -/
def groupDigits (s : String) : String :=
  let rev := s.data.reverse
  let grouped := (rev.enum.map
    (fun p => if p.1 % 3 == 0 && p.1 ≠ 0 then [',', p.2] else [p.2])).flatten
  ⟨grouped.reverse⟩

/-- `formatCurrency` from memory/monthly.ts: USD currency formatting of
`Math.round(value)` with no fraction digits, e.g. `-$1,234`. -/
def formatCurrency (value : ℚ) : String :=
  let n := jsRound value
  (if n < 0 then "-" else "") ++ "$" ++ groupDigits (toString n.natAbs)

/-- `formatPercentage` from memory/monthly.ts: `Math.round(value * 100) + "%"`. -/
def formatPercentage (value : ℚ) : String :=
  toString (jsRound (value * 100)) ++ "%"

/-- `x.toFixed(0)` rendered as a string (ties round away from the sign of the
integer part, per the ECMAScript `toFixed` algorithm on the absolute value). -/
def jsToFixed0 (q : ℚ) : String :=
  (if q < 0 then "-" else "") ++ toString (⌊|q| + 1/2⌋).toNat

/-- The numeric value of `Number(x.toFixed(3))`: x rounded to 3 decimals. -/
def jsToFixed3Val (q : ℚ) : ℚ :=
  (if q < 0 then (-1 : ℚ) else 1) * ((⌊|q| * 1000 + 1/2⌋ : ℤ) : ℚ) / 1000

/-- Decimal digit rendering of `x.toFixed(2)` (used by the synthesis step). -/
def jsToFixed2 (q : ℚ) : String :=
  let n := (⌊|q| * 100 + 1/2⌋).toNat
  (if q < 0 then "-" else "") ++ toString (n / 100) ++ "." ++
    (if n % 100 < 10 then "0" else "") ++ toString (n % 100)

/-- `story.slice(0, n)` on a JavaScript string. -/
def jsSlice (s : String) (n : ℕ) : String := ⟨s.data.take n⟩

/-- `story.padEnd(n, '.')`. -/
def padEndDot (s : String) (n : ℕ) : String :=
  ⟨s.data ++ List.replicate (n - s.data.length) '.'⟩

/-! ## Data model (src/types/index.ts) -/

inductive TransactionType
  | income
  | expense
  | investment
  | debt
  | transfer
deriving DecidableEq, Repr

structure Transaction where
  id : Option String := none
  amount : ℚ
  type : TransactionType
  category : Option String := none
  description : Option String := none
deriving DecidableEq, Repr

structure FinancialGoals where
  savingsRate : Option ℚ := none
  investmentRate : Option ℚ := none
  debtToIncome : Option ℚ := none
  expenseCapRatio : Option ℚ := none
deriving DecidableEq, Repr

structure BalanceSheet where
  cash : Option ℚ := none
  investments : Option ℚ := none
  debt : Option ℚ := none
deriving DecidableEq, Repr

inductive KPIUnit
  | currency
  | ratio
  | percentage
deriving DecidableEq, Repr

structure KPIValue where
  key : String
  label : String
  value : ℚ
  unit : Option KPIUnit := none
  delta : Option ℚ := none
  goal : Option ℚ := none
deriving DecidableEq, Repr

/-- The KPI record restricted to the twelve canonical keys: every code path in
the embedded sources reads and writes only these keys of the
`Record<string, KPIValue>`. -/
structure KPISet where
  income : Option KPIValue := none
  expenses : Option KPIValue := none
  investments : Option KPIValue := none
  debtPayments : Option KPIValue := none
  cashFlow : Option KPIValue := none
  savingsRate : Option KPIValue := none
  investmentRate : Option KPIValue := none
  debtToIncome : Option KPIValue := none
  expenseRatio : Option KPIValue := none
  debtOutstanding : Option KPIValue := none
  netWorth : Option KPIValue := none
  topExpenseCategory : Option KPIValue := none
deriving DecidableEq, Repr

/-- `kpis.x?.value ?? 0`, the ubiquitous optional-value read. -/
def kv (o : Option KPIValue) : ℚ :=
  match o with
  | some k => k.value
  | none => 0

structure PreviousInsightRef where
  month : String
  netWorth : Option ℚ := none
deriving DecidableEq, Repr

structure MonthlyComputationInput where
  userId : String
  month : String
  transactions : List Transaction
  balances : Option BalanceSheet := none
  goals : Option FinancialGoals := none
  previous : Option PreviousInsightRef := none
deriving DecidableEq, Repr

structure MonthlyInsight where
  id : String
  userId : String
  month : String
  kpis : KPISet
  story : String
  createdAt : String
deriving DecidableEq, Repr

structure HealthScoreComponent where
  key : String
  label : String
  score : ℚ
  weight : ℚ
  message : String
deriving DecidableEq, Repr

structure HealthScoreResult where
  total : ℚ
  components : List HealthScoreComponent
  notes : List String
deriving DecidableEq, Repr

inductive ActionCategory
  | income
  | expense
  | debt
  | investment
  | savings
deriving DecidableEq, Repr

structure SuggestedAction where
  id : String
  title : String
  description : String
  category : ActionCategory
  rationale : String
  expectedImpact : String
deriving DecidableEq, Repr

structure SimulationResult where
  projectedInsight : MonthlyInsight
  projectedHealth : HealthScoreResult
  adjustments : List (String × ℚ)
deriving DecidableEq, Repr

/-! ## Monthly memory computation (src/memory/monthly.ts) -/

/-- `sum(transactions, type)`: filter by type and add absolute amounts. -/
def sum (transactions : List Transaction) (t : TransactionType) : ℚ :=
  (transactions.filter (fun tr => tr.type == t)).foldl
    (fun total tr => total + |tr.amount|) 0

/-- `safeRatio`: 0 when the denominator is falsy. -/
def safeRatio (numerator denominator : ℚ) : ℚ :=
  if denominator = 0 then 0 else numerator / denominator

/-- Accumulation into the `expenseTotals` record, preserving first-insertion
order of categories like a JavaScript object literal. -/
def addCategoryAmount (acc : List (String × ℚ)) (cat : String) (amt : ℚ) :
    List (String × ℚ) :=
  if acc.any (fun p => p.1 == cat) then
    acc.map (fun p => if p.1 == cat then (p.1, p.2 + amt) else p)
  else
    acc ++ [(cat, amt)]

/-- The leader scan of `deriveTopExpenseCategory`: first entry with a strictly
maximal value wins. -/
def leaderOf (l : List (String × ℚ)) : Option (String × ℚ) :=
  l.foldl
    (fun acc p =>
      match acc with
      | none => some p
      | some q => if p.2 > q.2 then some p else some q)
    none

/-- `deriveTopExpenseCategory` from memory/monthly.ts. Uncategorised expenses
(missing or empty category string, both falsy) are skipped. -/
def deriveTopExpenseCategory (transactions : List Transaction) : String × ℚ :=
  let expenseTotals :=
    (transactions.filter (fun tr => tr.type == TransactionType.expense)).foldl
      (fun acc tr =>
        match tr.category with
        | none => acc
        | some c => if c == "" then acc else addCategoryAmount acc c |tr.amount|)
      []
  let totalExpenses := (expenseTotals.map Prod.snd).sum
  match leaderOf expenseTotals with
  | none => ("general expenses", 0)
  | some leader =>
      if totalExpenses = 0 then ("general expenses", 0)
      else (leader.1, safeRatio leader.2 totalExpenses)

/-- The final two statements of `craftMonthlyStory`: ellipsis-truncate past
400 characters, then pad with dots up to 200. -/
def fitStoryLength (story : String) : String :=
  let story3 := if story.length > 400 then jsSlice story 397 ++ "..." else story
  if story3.length < 200 then padEndDot story3 200 else story3

/-- `craftMonthlyStory` from memory/monthly.ts. -/
def craftMonthlyStory (month : String) (kpis : KPISet) : String :=
  let income := kv kpis.income
  let expenses := kv kpis.expenses
  let cashFlow := kv kpis.cashFlow
  let savingsRate := kv kpis.savingsRate
  let investmentRate := kv kpis.investmentRate
  let debtToIncome := kv kpis.debtToIncome
  let netWorth := kv kpis.netWorth
  let delta := ((kpis.netWorth.map KPIValue.delta).join).getD 0
  let leadingExpense := ((kpis.topExpenseCategory.map KPIValue.label).getD "spending")
  let expenseShare := kv kpis.topExpenseCategory
  let sentence1 :=
    "In " ++ month ++ ", income reached " ++ formatCurrency income ++
    " while expenses were " ++ formatCurrency expenses ++
    ", leaving net cash flow of " ++ formatCurrency cashFlow ++ "."
  let sentence2 :=
    "You saved " ++ formatPercentage savingsRate ++ " of income, invested " ++
    formatPercentage investmentRate ++
    ", and carried a debt-to-income ratio of " ++
    formatPercentage debtToIncome ++ "."
  let sentence3 :=
    "Net worth closed at " ++ formatCurrency netWorth ++
    (if delta ≠ 0 then
      ", a " ++ (if delta > 0 then "gain" else "dip") ++ " of " ++
        formatCurrency |delta|
    else "") ++
    ", with " ++ leadingExpense ++ " taking " ++
    formatPercentage expenseShare ++ " of spending."
  let story0 := sentence1 ++ " " ++ sentence2 ++ " " ++ sentence3
  let story1 :=
    if story0.length < 200 then
      let expenseRatio := kv kpis.expenseRatio
      story0 ++ " Expense ratio sat at " ++ formatPercentage expenseRatio ++
        ", keeping progress " ++
        (if expenseRatio ≤ 1/2 then "ahead of plan" else "within reach") ++ "."
    else story0
  let story2 :=
    if story1.length < 200 then
      story1 ++ " Continued focus on mindful spending will compound the month’s momentum."
    else story1
  fitStoryLength story2

/-- `goals?.field` reads. -/
def goalOf (goals : Option FinancialGoals) (f : FinancialGoals → Option ℚ) :
    Option ℚ :=
  goals.bind f

/-- The KPI set constructed by `computeMonthlyMemory` (memory/monthly.ts,
lines 131-180), split out from the insight assembly. -/
def computeMonthlyKpis (input : MonthlyComputationInput) : KPISet :=
  let totalIncome := sum input.transactions TransactionType.income
  let totalExpenses := sum input.transactions TransactionType.expense
  let totalInvestments := sum input.transactions TransactionType.investment
  let totalDebtPayments := sum input.transactions TransactionType.debt
  let netCashFlow := totalIncome - totalExpenses - totalInvestments - totalDebtPayments
  let savingsRate :=
    if totalIncome > 0 then clamp ((totalIncome - totalExpenses) / totalIncome) 0 (3/2) else 0
  let investmentRate :=
    if totalIncome > 0 then clamp (totalInvestments / totalIncome) 0 (3/2) else 0
  let debtOutstanding := ((input.balances.map BalanceSheet.debt).join).getD 0
  let debtToIncome :=
    if totalIncome > 0 then clamp (debtOutstanding / totalIncome) 0 2 else 0
  let expenseRatio :=
    if totalIncome > 0 then clamp (totalExpenses / totalIncome) 0 2 else 0
  let netWorth :=
    ((input.balances.map BalanceSheet.cash).join).getD 0 +
    ((input.balances.map BalanceSheet.investments).join).getD 0 - debtOutstanding
  let netWorthDelta :=
    (input.previous.bind PreviousInsightRef.netWorth).map (fun p => netWorth - p)
  let top := deriveTopExpenseCategory input.transactions
  { income := some ⟨"income", "Total income", totalIncome, some .currency, none, none⟩
    expenses := some ⟨"expenses", "Total expenses", totalExpenses, some .currency, none, none⟩
    investments := some ⟨"investments", "Investment contributions", totalInvestments,
      some .currency, none, none⟩
    debtPayments := some ⟨"debtPayments", "Debt payments", totalDebtPayments,
      some .currency, none, none⟩
    cashFlow := some ⟨"cashFlow", "Net cash flow", netCashFlow, some .currency, none, none⟩
    savingsRate := some ⟨"savingsRate", "Savings rate", savingsRate, some .ratio, none,
      goalOf input.goals FinancialGoals.savingsRate⟩
    investmentRate := some ⟨"investmentRate", "Investment rate", investmentRate, some .ratio,
      none, goalOf input.goals FinancialGoals.investmentRate⟩
    debtToIncome := some ⟨"debtToIncome", "Debt-to-income", debtToIncome, some .ratio, none,
      goalOf input.goals FinancialGoals.debtToIncome⟩
    expenseRatio := some ⟨"expenseRatio", "Expense ratio", expenseRatio, some .ratio, none,
      goalOf input.goals FinancialGoals.expenseCapRatio⟩
    debtOutstanding := some ⟨"debtOutstanding", "Debt outstanding", debtOutstanding,
      some .currency, none, none⟩
    netWorth := some ⟨"netWorth", "Net worth", netWorth, some .currency, netWorthDelta, none⟩
    topExpenseCategory := some ⟨"topExpenseCategory", top.1, top.2, some .percentage,
      none, none⟩ }

/-- `computeMonthlyMemory`. The wall clock read of `new Date().toISOString()`
is passed in as `now`; the in-memory upserts of insight and embedding are side
effects outside the returned value and are modelled separately. -/
def computeMonthlyMemory (now : String) (input : MonthlyComputationInput) :
    MonthlyInsight :=
  let kpis := computeMonthlyKpis input
  { id := input.userId ++ ":" ++ input.month
    userId := input.userId
    month := input.month
    kpis := kpis
    story := craftMonthlyStory input.month kpis
    createdAt := now }

/-! ## Health scorer (src/score/health.ts) -/

/-- `KPI_WEIGHTS[key]` (the map only defines the four component keys). -/
def kpiWeight (key : String) : ℚ :=
  if key == "cashFlow" then 35/100
  else if key == "savingsRate" then 25/100
  else if key == "debtToIncome" then 20/100
  else if key == "investmentRate" then 20/100
  else 0

/-- `KPI_LABELS[key]`. -/
def kpiLabel (key : String) : String :=
  if key == "cashFlow" then "Cash flow quality"
  else if key == "savingsRate" then "Savings discipline"
  else if key == "debtToIncome" then "Debt load"
  else if key == "investmentRate" then "Future planning"
  else ""

/-- `scoreCashFlow`. -/
def scoreCashFlow (kpis : KPISet) : ℚ :=
  let income := kv kpis.income
  let cashFlow := kv kpis.cashFlow
  if income ≤ 0 then 1/2
  else clamp ((cashFlow / income + 1) / 2) 0 1

/-- `scoreSavings`. -/
def scoreSavings (kpis : KPISet) : ℚ := clamp (kv kpis.savingsRate) 0 1

/-- `scoreInvestment`. -/
def scoreInvestment (kpis : KPISet) : ℚ :=
  clamp (kv kpis.investmentRate / (3/10)) 0 1

/-- `scoreDebt`. -/
def scoreDebt (kpis : KPISet) : ℚ :=
  let debtRatio := kv kpis.debtToIncome
  if debtRatio ≤ 0 then 1 else clamp (1 - debtRatio) 0 1

/-- `componentMessage`. -/
def componentMessage (key : String) (score : ℚ) (kpis : KPISet) : String :=
  if key == "cashFlow" then
    let cashFlow := kv kpis.cashFlow
    let income := kv kpis.income
    if score ≥ 75/100 then
      "Cash flow is resilient with " ++ jsToFixed0 cashFlow ++
        " retained from " ++ jsToFixed0 income ++ " of income."
    else if score ≥ 1/2 then
      "Cash flow is stable but could be improved; " ++ jsToFixed0 cashFlow ++
        " remains after essentials."
    else "Cash flow is tight; consider trimming variable costs or boosting income."
  else if key == "savingsRate" then
    let savingsRate := kv kpis.savingsRate
    if score ≥ 75/100 then
      "Savings rate at " ++ toString (jsRound (savingsRate * 100)) ++
        "% keeps you ahead of goals."
    else if score ≥ 1/2 then
      "Savings rate of " ++ toString (jsRound (savingsRate * 100)) ++
        "% meets minimum targets."
    else "Savings rate trails expectations; redirect part of surplus cash flow to savings."
  else if key == "debtToIncome" then
    let debtRatio := kv kpis.debtToIncome
    if score ≥ 75/100 then
      "Debt-to-income at " ++ toString (jsRound (debtRatio * 100)) ++
        "% is comfortably low."
    else if score ≥ 1/2 then
      "Debt-to-income near " ++ toString (jsRound (debtRatio * 100)) ++
        "% is manageable but worth watching."
    else "Debt load weighs on income; prioritise repayments to regain flexibility."
  else if key == "investmentRate" then
    let investmentRate := kv kpis.investmentRate
    if score ≥ 75/100 then
      "Investment contributions of " ++ toString (jsRound (investmentRate * 100)) ++
        "% support future growth."
    else if score ≥ 1/2 then
      "Investment rate of " ++ toString (jsRound (investmentRate * 100)) ++
        "% keeps momentum but has room to grow."
    else "Investment pace is light; allocate a fixed monthly contribution to long-term assets."
  else "KPI review complete."

/-- `buildComponent`: the component score is `Number(score.toFixed(3))`. -/
def buildComponent (key : String) (score : ℚ) (kpis : KPISet) :
    HealthScoreComponent :=
  { key := key
    label := kpiLabel key
    score := jsToFixed3Val score
    weight := kpiWeight key
    message := componentMessage key score kpis }

/-- `deriveNotes`. The weakest-component scan uses the stable ascending sort
of `[...components].sort((a, b) => a.score - b.score)`. -/
def deriveNotes (components : List HealthScoreComponent) (kpis : KPISet) :
    List String :=
  let goalNotes :=
    (match kpis.savingsRate.bind KPIValue.goal with
      | some g =>
          if kv kpis.savingsRate < g then
            ["Savings rate trails the " ++ toString (jsRound (g * 100)) ++ "% goal."]
          else []
      | none => []) ++
    (match kpis.investmentRate.bind KPIValue.goal with
      | some g =>
          if kv kpis.investmentRate < g then
            ["Investment contributions lag the " ++ toString (jsRound (g * 100)) ++
              "% target."]
          else []
      | none => []) ++
    (match kpis.debtToIncome.bind KPIValue.goal with
      | some g =>
          if kv kpis.debtToIncome > g then
            ["Debt-to-income exceeds the " ++ toString (jsRound (g * 100)) ++ "% ceiling."]
          else []
      | none => [])
  if goalNotes.isEmpty then
    match (components.mergeSort (fun a b => decide (a.score ≤ b.score))).head? with
    | some weakest => ["Focus on " ++ weakest.label.toLower ++ " to unlock more points."]
    | none => []
  else goalNotes

/-- `scoreFinancialHealth`. -/
def scoreFinancialHealth (kpis : KPISet) : HealthScoreResult :=
  let components :=
    [buildComponent "cashFlow" (scoreCashFlow kpis) kpis,
     buildComponent "savingsRate" (scoreSavings kpis) kpis,
     buildComponent "debtToIncome" (scoreDebt kpis) kpis,
     buildComponent "investmentRate" (scoreInvestment kpis) kpis]
  let total := jsToFixed3Val
    (components.foldl (fun aggregate c => aggregate + c.score * c.weight) 0)
  { total := total
    components := components
    notes := deriveNotes components kpis }

/-! ## Action suggester (src/actions/suggest.ts) -/

/-- `hasAction`. -/
def hasAction (actions : List SuggestedAction) (id : String) : Bool :=
  actions.any (fun action => action.id == id)

/-- `formatPercent` (undefined renders as `0%`). -/
def formatPercent (value : Option ℚ) : String :=
  match value with
  | none => "0%"
  | some v => toString (jsRound (v * 100)) ++ "%"

/-- The fixed action pushed by rule 1. -/
def improveSavingsAction (savingsRate savingsGoal : ℚ) : SuggestedAction :=
  { id := "improve-savings"
    title := "Automate an extra savings transfer"
    description := "Schedule a mid-month auto-transfer to route part of your surplus into savings before it is spent."
    category := .savings
    rationale := "Savings rate " ++ formatPercent (some savingsRate) ++
      " is below the " ++ formatPercent (some savingsGoal) ++ " goal."
    expectedImpact := "Raises savings rate by ~3 percentage points and boosts net cash flow." }

/-- The fixed action pushed by rule 2. -/
def optimizeExpensesAction (expenseRatio expenseGoal : ℚ) : SuggestedAction :=
  { id := "optimize-expenses"
    title := "Cap discretionary spending buckets"
    description := "Set weekly limits on dining, shopping, and entertainment to bring overall expenses back toward plan."
    category := .expense
    rationale := "Expenses consume " ++ formatPercent (some expenseRatio) ++
      " of income versus " ++ formatPercent (some expenseGoal) ++ " target."
    expectedImpact := "Lowers expenses by about 5% and improves cash flow." }

/-- The fixed action pushed by rule 3. -/
def accelerateDebtAction (debtRatio debtGoal : ℚ) : SuggestedAction :=
  { id := "accelerate-debt"
    title := "Apply surplus to high-interest debt"
    description := "Redirect part of the surplus each month toward the highest-rate balance to drop your debt ratio faster."
    category := .debt
    rationale := "Debt-to-income at " ++ formatPercent (some debtRatio) ++
      " exceeds the " ++ formatPercent (some debtGoal) ++ " ceiling."
    expectedImpact := "Shrinks outstanding balances by ~5% over the next quarter." }

/-- The fixed action pushed by rule 4. -/
def boostInvestmentsAction (investmentRate investmentGoal : ℚ) : SuggestedAction :=
  { id := "boost-investments"
    title := "Increase recurring investment by a fixed amount"
    description := "Raise the automated investment transfer to steadily climb toward the long-term allocation target."
    category := .investment
    rationale := "Investment rate " ++ formatPercent (some investmentRate) ++
      " trails the " ++ formatPercent (some investmentGoal) ++ " target."
    expectedImpact := "Lifts investment rate by around 2 percentage points." }

/-- The fixed action pushed by rule 5. -/
def growIncomeAction : SuggestedAction :=
  { id := "grow-income"
    title := "Pursue a side income experiment"
    description := "Test a freelance or marketplace opportunity to add a steady secondary income stream."
    category := .income
    rationale := "Cash flow score flagged as weak, signalling limited buffer after expenses."
    expectedImpact := "Adds roughly 3% to income when successful." }

/-- The fallback action. -/
def stayTheCourseAction : SuggestedAction :=
  { id := "stay-the-course"
    title := "Stay the course"
    description := "Financial health metrics align with plan. Continue current habits and review again next month."
    category := .savings
    rationale := "No critical KPI gaps detected."
    expectedImpact := "Maintains steady progress." }

/-- Rule 1 of `suggestActions` (`savingsRate < goal ?? 0.2`). -/
def pushSavingsRule (kpis : KPISet) (actions : List SuggestedAction) :
    List SuggestedAction :=
  let savingsRate := kv kpis.savingsRate
  let savingsGoal := (kpis.savingsRate.bind KPIValue.goal).getD (2/10)
  if savingsRate < savingsGoal ∧ ¬hasAction actions "improve-savings" then
    actions ++ [improveSavingsAction savingsRate savingsGoal]
  else actions

/-- Rule 2 of `suggestActions` (`expenseRatio > goal ?? 0.5`). -/
def pushExpenseRule (kpis : KPISet) (actions : List SuggestedAction) :
    List SuggestedAction :=
  let expenseRatio := kv kpis.expenseRatio
  let expenseGoal := (kpis.expenseRatio.bind KPIValue.goal).getD (5/10)
  if expenseRatio > expenseGoal ∧ ¬hasAction actions "optimize-expenses" then
    actions ++ [optimizeExpensesAction expenseRatio expenseGoal]
  else actions

/-- Rule 3 of `suggestActions` (`debtToIncome > goal ?? 0.35`). -/
def pushDebtRule (kpis : KPISet) (actions : List SuggestedAction) :
    List SuggestedAction :=
  let debtRatio := kv kpis.debtToIncome
  let debtGoal := (kpis.debtToIncome.bind KPIValue.goal).getD (35/100)
  if debtRatio > debtGoal ∧ ¬hasAction actions "accelerate-debt" then
    actions ++ [accelerateDebtAction debtRatio debtGoal]
  else actions

/-- Rule 4 of `suggestActions` (`investmentRate < goal ?? 0.15`). -/
def pushInvestmentRule (kpis : KPISet) (actions : List SuggestedAction) :
    List SuggestedAction :=
  let investmentRate := kv kpis.investmentRate
  let investmentGoal := (kpis.investmentRate.bind KPIValue.goal).getD (15/100)
  if investmentRate < investmentGoal ∧ ¬hasAction actions "boost-investments" then
    actions ++ [boostInvestmentsAction investmentRate investmentGoal]
  else actions

/-- Rule 5 of `suggestActions` (`income > 0` and weak cash-flow component). -/
def pushIncomeRule (kpis : KPISet) (health : HealthScoreResult)
    (actions : List SuggestedAction) : List SuggestedAction :=
  let income := kv kpis.income
  match health.components.find? (fun component => component.key == "cashFlow") with
  | some component =>
      if income > 0 ∧ component.score < 1/2 ∧ ¬hasAction actions "grow-income" then
        actions ++ [growIncomeAction]
      else actions
  | none => actions

/-- `suggestActions`: the five rules fire in fixed source order, each as one
push onto the list (the `hasAction` re-checks of the source are kept inside
each rule), with the stay-the-course fallback when nothing fired. -/
def suggestActions (insight : MonthlyInsight) (health : HealthScoreResult) :
    List SuggestedAction :=
  let actions :=
    pushIncomeRule insight.kpis health
      (pushInvestmentRule insight.kpis
        (pushDebtRule insight.kpis
          (pushExpenseRule insight.kpis
            (pushSavingsRule insight.kpis []))))
  if actions.isEmpty then [stayTheCourseAction] else actions

/-! ## Simulator (src/simulator/simulate.ts) -/

/-- `adjustSavings(projected, delta)`: returns the updated insight and the
cash amount moved (the mutations become functional updates; `cloneInsight`
is the identity on pure values). -/
def adjustSavings (projected : MonthlyInsight) (delta : ℚ) :
    MonthlyInsight × ℚ :=
  let income := kv projected.kpis.income
  match projected.kpis.savingsRate, projected.kpis.expenses,
      projected.kpis.cashFlow with
  | some savingsRateKpi, some expenseKpi, some cashFlowKpi =>
      if income ≤ 0 then (projected, 0)
      else
        let previousRate := savingsRateKpi.value
        let newRate := clamp (previousRate + delta) 0 (8/10)
        let rateDelta := newRate - previousRate
        let change := income * rateDelta
        let expVal := max 0 (expenseKpi.value - change)
        let kpis1 :=
          { projected.kpis with
              savingsRate := some { savingsRateKpi with value := newRate }
              expenses := some { expenseKpi with value := expVal }
              cashFlow := some { cashFlowKpi with value := cashFlowKpi.value + change } }
        let kpis2 :=
          match kpis1.expenseRatio with
          | some er =>
              { kpis1 with expenseRatio := some { er with value := clamp (expVal / income) 0 2 } }
          | none => kpis1
        ({ projected with kpis := kpis2 }, change)
  | _, _, _ => (projected, 0)

/-- `adjustExpenses(projected, percent)`. -/
def adjustExpenses (projected : MonthlyInsight) (percent : ℚ) :
    MonthlyInsight × ℚ :=
  let income := kv projected.kpis.income
  match projected.kpis.expenses, projected.kpis.cashFlow with
  | some expenseKpi, some cashFlowKpi =>
      let reduction := expenseKpi.value * percent
      let expVal := max 0 (expenseKpi.value - reduction)
      let kpis1 :=
        { projected.kpis with
            expenses := some { expenseKpi with value := expVal }
            cashFlow := some { cashFlowKpi with value := cashFlowKpi.value + reduction } }
      let kpis2 :=
        match kpis1.savingsRate with
        | some sr =>
            if income > 0 then
              { kpis1 with
                  savingsRate := some { sr with value := clamp ((income - expVal) / income) 0 (12/10) } }
            else kpis1
        | none => kpis1
      let kpis3 :=
        match kpis2.expenseRatio with
        | some er =>
            if income > 0 then
              { kpis2 with
                  expenseRatio := some { er with value := clamp (expVal / income) 0 (15/10) } }
            else kpis2
        | none => kpis2
      ({ projected with kpis := kpis3 }, reduction)
  | _, _ => (projected, 0)

/-- `adjustDebt(projected, percent)`. The source aliases
`kpis.debtOutstanding ?? kpis.debtToIncome` and mutates the aliased KPI in
place, so when `debtOutstanding` is absent the reduction lands on
`debtToIncome` before the ratio refresh reads it back. -/
def adjustDebt (projected : MonthlyInsight) (percent : ℚ) :
    MonthlyInsight × ℚ :=
  let income := kv projected.kpis.income
  match projected.kpis.debtOutstanding with
  | some dOut =>
      let current := dOut.value
      let reduction := current * percent
      let newVal := max 0 (current - reduction)
      let kpis1 := { projected.kpis with debtOutstanding := some { dOut with value := newVal } }
      let kpis2 :=
        match kpis1.debtToIncome with
        | some dti =>
            { kpis1 with
                debtToIncome := some { dti with value := if income > 0 then clamp (newVal / income) 0 2 else 0 } }
        | none => kpis1
      ({ projected with kpis := kpis2 }, reduction)
  | none =>
      match projected.kpis.debtToIncome with
      | some dti =>
          let current := dti.value
          let reduction := current * percent
          let newVal := max 0 (current - reduction)
          let kpis1 :=
            { projected.kpis with
                debtToIncome := some { dti with value := if income > 0 then clamp (newVal / income) 0 2 else 0 } }
          ({ projected with kpis := kpis1 }, reduction)
      | none => (projected, 0)

/-- `adjustInvestments(projected, delta)`. -/
def adjustInvestments (projected : MonthlyInsight) (delta : ℚ) :
    MonthlyInsight × ℚ :=
  let income := kv projected.kpis.income
  match projected.kpis.investments, projected.kpis.investmentRate,
      projected.kpis.cashFlow with
  | some investmentKpi, some investmentRateKpi, some cashFlowKpi =>
      if income ≤ 0 then (projected, 0)
      else
        let additionalContribution := income * delta
        let invVal := investmentKpi.value + additionalContribution
        let kpis1 :=
          { projected.kpis with
              investments := some { investmentKpi with value := invVal }
              investmentRate := some { investmentRateKpi with value := clamp (invVal / income) 0 (12/10) }
              cashFlow := some { cashFlowKpi with value := cashFlowKpi.value - additionalContribution } }
        ({ projected with kpis := kpis1 }, additionalContribution)
  | _, _, _ => (projected, 0)

/-- `adjustIncome(projected, percent)`: later reads see the already-updated
income value, exactly as the source mutations do. -/
def adjustIncome (projected : MonthlyInsight) (percent : ℚ) :
    MonthlyInsight × ℚ :=
  match projected.kpis.income with
  | some incomeKpi =>
      let increase := incomeKpi.value * percent
      let newIncome := incomeKpi.value + increase
      let kpis1 := { projected.kpis with income := some { incomeKpi with value := newIncome } }
      let kpis2 :=
        match kpis1.cashFlow with
        | some cf => { kpis1 with cashFlow := some { cf with value := cf.value + increase } }
        | none => kpis1
      let kpis3 :=
        match kpis2.expenses, kpis2.expenseRatio with
        | some expenseKpi, some er =>
            { kpis2 with
                expenseRatio := some { er with value := clamp (expenseKpi.value / newIncome) 0 2 } }
        | _, _ => kpis2
      let kpis4 :=
        match kpis3.savingsRate, kpis3.expenses with
        | some sr, some expenseKpi =>
            { kpis3 with
                savingsRate := some { sr with value := clamp ((newIncome - expenseKpi.value) / newIncome) 0 (12/10) } }
        | _, _ => kpis3
      let kpis5 :=
        match kpis4.investments, kpis4.investmentRate with
        | some investmentKpi, some ir =>
            { kpis4 with
                investmentRate := some { ir with value := clamp (investmentKpi.value / newIncome) 0 (12/10) } }
        | _, _ => kpis4
      let kpis6 :=
        match kpis5.debtToIncome with
        | some dti =>
            let outstanding :=
              match kpis5.debtOutstanding with
              | some d => d.value
              | none => dti.value * (newIncome - increase)
            { kpis5 with
                debtToIncome := some { dti with value :=
                      if newIncome > 0 then clamp (outstanding / newIncome) 0 2
                      else dti.value } }
        | none => kpis5
      ({ projected with kpis := kpis6 }, increase)
  | none => (projected, 0)

/-- `refreshDerived(projected)`: recompute the derived KPI values from the
primitive ones (the four aggregate reads happen before any update). -/
def refreshDerived (kpis : KPISet) : KPISet :=
  let income := kv kpis.income
  let expenses := kv kpis.expenses
  let investments := kv kpis.investments
  let debtPayments := kv kpis.debtPayments
  let k1 :=
    match kpis.cashFlow with
    | some cf =>
        { kpis with cashFlow := some { cf with value := income - expenses - investments - debtPayments } }
    | none => kpis
  let k2 :=
    match k1.savingsRate with
    | some sr =>
        if income > 0 then
          { k1 with savingsRate := some { sr with value := clamp ((income - expenses) / income) 0 (12/10) } }
        else k1
    | none => k1
  let k3 :=
    match k2.investmentRate with
    | some ir =>
        if income > 0 then
          { k2 with investmentRate := some { ir with value := clamp (investments / income) 0 (12/10) } }
        else k2
    | none => k2
  let k4 :=
    match k3.expenseRatio with
    | some er =>
        if income > 0 then
          { k3 with expenseRatio := some { er with value := clamp (expenses / income) 0 (15/10) } }
        else k3
    | none => k3
  match k4.debtToIncome with
  | some dti =>
      if income > 0 then
        let debtOutstanding :=
          match k4.debtOutstanding with
          | some d => d.value
          | none => dti.value * income
        { k4 with debtToIncome := some { dti with value := clamp (debtOutstanding / income) 0 2 } }
      else k4
  | none => k4

/-- `ensureDebtOutstanding(projected)`. -/
def ensureDebtOutstanding (projected : MonthlyInsight) : MonthlyInsight :=
  match projected.kpis.debtOutstanding with
  | some _ => projected
  | none =>
      let debtToIncome := kv projected.kpis.debtToIncome
      let income := kv projected.kpis.income
      { projected with
          kpis := { projected.kpis with
            debtOutstanding := some
              ⟨"debtOutstanding", "Debt outstanding", income * debtToIncome,
                some .currency, none, none⟩ } }

/-- `adjustments[action.id] = value`: JavaScript object assignment on an
insertion-ordered record. -/
def setAdjustment (l : List (String × ℚ)) (id : String) (v : ℚ) :
    List (String × ℚ) :=
  if l.any (fun p => p.1 == id) then
    l.map (fun p => if p.1 == id then (p.1, v) else p)
  else l ++ [(id, v)]

/-- One iteration of the action switch in `simulateAdjustments`. -/
def applyAction (state : MonthlyInsight × List (String × ℚ))
    (action : SuggestedAction) : MonthlyInsight × List (String × ℚ) :=
  let (projected, adjustments) := state
  if action.id == "improve-savings" then
    let (p, v) := adjustSavings projected (3/100)
    (p, setAdjustment adjustments action.id v)
  else if action.id == "optimize-expenses" then
    let (p, v) := adjustExpenses projected (5/100)
    (p, setAdjustment adjustments action.id v)
  else if action.id == "accelerate-debt" then
    let (p, v) := adjustDebt projected (5/100)
    (p, setAdjustment adjustments action.id v)
  else if action.id == "boost-investments" then
    let (p, v) := adjustInvestments projected (2/100)
    (p, setAdjustment adjustments action.id v)
  else if action.id == "grow-income" then
    let (p, v) := adjustIncome projected (3/100)
    (p, setAdjustment adjustments action.id v)
  else
    (projected, setAdjustment adjustments action.id 0)

/-- `simulateAdjustments(insight, actions)`. -/
def simulateAdjustments (insight : MonthlyInsight)
    (actions : List SuggestedAction) : SimulationResult :=
  let start := ensureDebtOutstanding insight
  let (projected, adjustments) := actions.foldl applyAction (start, [])
  let refreshedKpis := refreshDerived projected.kpis
  let story := craftMonthlyStory (projected.month ++ " (projected)") refreshedKpis
  let projectedInsight := { projected with kpis := refreshedKpis, story := story }
  { projectedInsight := projectedInsight
    projectedHealth := scoreFinancialHealth refreshedKpis
    adjustments := adjustments }

/-! ## Vector memory (src/api/vector-store.ts, src/storage/insights.ts,
src/services/embeddings.ts) -/

/-- Metadata stored with each embedding record by `upsertEmbedding` in
`computeMonthlyMemory`: `{ userId, month, kpis: Object.keys(kpis) }`. -/
structure EmbMetadata where
  userId : String
  month : String
  kpiKeys : List String
deriving DecidableEq, Repr

structure EmbeddingRecord where
  id : String
  vector : List ℚ
  metadata : EmbMetadata
deriving DecidableEq, Repr

/-- The metadata attached to a retrieval document:
`{ ...record.metadata, score, month: insight.month, kpis: insight.kpis }`
(the spread month is overwritten by the insight month). -/
structure DocMetadata where
  userId : String
  kpiKeys : List String
  score : ℚ
  month : String
  kpis : KPISet
deriving DecidableEq, Repr

structure RetrievalDocument where
  id : String
  userId : String
  content : String
  metadata : Option DocMetadata := none
deriving DecidableEq, Repr

/-- `listInsights(userId)` over the in-memory insight store. -/
def listInsights (store : List MonthlyInsight) (userId : String) :
    List MonthlyInsight :=
  store.filter (fun entry => entry.userId == userId)

/-- The score read of the sort comparator:
`typeof doc.metadata?.score === "number" ? doc.metadata.score : 0`. -/
def docScore (doc : RetrievalDocument) : ℚ :=
  match doc.metadata with
  | some m => m.score
  | none => 0

/-- `insightVectorStore.search`. The cosine similarity of the source divides
by `Math.sqrt`, which has no exact rational counterpart, so the similarity
function `sim` is passed in as a parameter; every property proved below holds
for an arbitrary `sim`, in particular for the floating-point cosine. The
global embedding and insight stores are explicit arguments. -/
def insightVectorStoreSearch (sim : List ℚ → List ℚ → ℚ)
    (allEmbeddings : List EmbeddingRecord) (allInsights : List MonthlyInsight)
    (userId : String) (queryEmbedding : List ℚ) (limitOpt : Option ℕ) :
    List RetrievalDocument :=
  let limit := limitOpt.getD 5
  let embeddings := allEmbeddings.filter (fun record => record.metadata.userId == userId)
  if embeddings.isEmpty then []
  else
    let insights := listInsights allInsights userId
    let documents := embeddings.filterMap (fun record =>
      match insights.find? (fun entry => entry.id == record.id) with
      | none => none
      | some insight =>
          some { id := record.id
                 userId := userId
                 content := insight.story
                 metadata := some
                   { userId := record.metadata.userId
                     kpiKeys := record.metadata.kpiKeys
                     score := sim queryEmbedding record.vector
                     month := insight.month
                     kpis := insight.kpis } })
    let sorted := documents.mergeSort (fun a b => decide (docScore b ≤ docScore a))
    sorted.take (max 1 limit)

/-! ## Embedding router retry loop (src/providers/embeddings-router.ts) -/

def RETRIES : ℕ := 3

def INITIAL_DELAY : ℚ := 200

def BACKOFF : ℚ := 2

/-- Observable trace of one `withRetry` run: the surfaced result, the number
of invocations of `fn`, and the sleeps performed between invocations. -/
structure RetryTrace (α : Type) where
  result : Except String α
  calls : ℕ
  delays : List ℚ
deriving Repr

/-- The `while (true)` loop of `withRetry`, with `fn` modelled as a function
from the invocation index to its outcome. `remaining` counts the retries
still allowed, i.e. `RETRIES - attempt`; the source throws when the
incremented `attempt` exceeds `RETRIES`, which is exactly `remaining = 0`. -/
def withRetryGo (fn : ℕ → Except String α) :
    ℕ → ℚ → ℕ → List ℚ → RetryTrace α
  | remaining, delayMs, calls, delays =>
    match fn calls with
    | .ok v => ⟨.ok v, calls + 1, delays⟩
    | .error e =>
        match remaining with
        | 0 => ⟨.error e, calls + 1, delays⟩
        | r + 1 => withRetryGo fn r (delayMs * BACKOFF) (calls + 1) (delays ++ [delayMs])

/-- `withRetry` with the router constants. -/
def withRetry (fn : ℕ → Except String α) : RetryTrace α :=
  withRetryGo fn RETRIES INITIAL_DELAY 0 []

/-! ## Idempotent tool invocation (src/mcp/server.ts,
`performIdempotentOperation`) -/

/-- A row of the `idempotency_keys` table. The response payload type is a
parameter (the source stores serialised JSON; `JSON.parse(JSON.stringify(x))`
is the identity on the values of interest). -/
structure IdempotencyRecord (α : Type) where
  id : ℕ
  tenantId : String
  idempotencyKey : String
  requestHash : String
  responsePayload : Option α := none
  lockedAt : Option ℚ := none
  createdAt : ℚ
deriving DecidableEq, Repr

inductive IdemOutcome (α : Type)
  | conflict (existingRequestHash : String)
  | ok (result : α) (replayed : Bool)
deriving DecidableEq, Repr

/-- Result of one `performIdempotentOperation` call: its outcome, the table
after the call, and whether the executor (resolver) was invoked. -/
structure IdemResult (α : Type) where
  outcome : IdemOutcome α
  store : List (IdempotencyRecord α)
  executorRan : Bool
deriving Repr

/-- `INSERT ... ON CONFLICT (tenantId, idempotencyKey) DO UPDATE SET
lockedAt = now RETURNING id, requestHash, responsePayload`: returns the row
after the statement (the existing row with a refreshed lock, or the freshly
inserted row). -/
def insertIdemOnConflict (store : List (IdempotencyRecord α))
    (tenant key hash : String) (now : ℚ) (freshId : ℕ) :
    IdempotencyRecord α × List (IdempotencyRecord α) :=
  match store.find? (fun r => r.tenantId == tenant && r.idempotencyKey == key) with
  | some existing =>
      let updated := { existing with lockedAt := some now }
      (updated,
        store.map (fun r => if r.id == existing.id then updated else r))
  | none =>
      let fresh : IdempotencyRecord α :=
        { id := freshId, tenantId := tenant, idempotencyKey := key
          requestHash := hash, responsePayload := none
          lockedAt := some now, createdAt := now }
      (fresh, store ++ [fresh])

/-- `performIdempotentOperation`. The SHA-256 of the canonical request JSON
is passed in directly as `requestHash` (the claims quantify over hash
equality, not hash computation); `executor` is the resolver result. The
source guard is `entry.requestHash && entry.requestHash !== requestHash`,
so an empty stored hash (falsy) skips the conflict check. -/
def performIdempotentOperation (store : List (IdempotencyRecord α))
    (tenant key requestHash : String) (now : ℚ) (freshId : ℕ)
    (executor : α) : IdemResult α :=
  let (entry, store1) := insertIdemOnConflict store tenant key requestHash now freshId
  if entry.requestHash ≠ "" ∧ entry.requestHash ≠ requestHash then
    { outcome := .conflict entry.requestHash, store := store1, executorRan := false }
  else
    match entry.responsePayload with
    | some payload =>
        { outcome := .ok payload true, store := store1, executorRan := false }
    | none =>
        let result := executor
        let store2 := store1.map (fun r =>
          if r.id == entry.id then
            { r with responsePayload := some result
                     requestHash := requestHash
                     lockedAt := none }
          else r)
        { outcome := .ok result false, store := store2, executorRan := true }

/-! ## Orchestrator (src/orchestrator/index.ts, src/orchestrator/schemas.ts) -/

inductive MessageRole
  | system
  | user
  | assistant
deriving DecidableEq, Repr

structure ConversationMessage where
  role : MessageRole
  content : String
deriving DecidableEq, Repr

inductive IntentName
  | record_transaction
  | budget_summary
  | general_question
  | unknown
deriving DecidableEq, Repr

structure Intent where
  intent : IntentName
  confidence : ℚ
  reasoning : Option String := none
deriving DecidableEq, Repr

inductive StepType
  | retrieval
  | llm
  | tool
  | synthesis
deriving DecidableEq, Repr

/-- The fields of `step.input` that the executor reads. -/
structure StepInput where
  limit : Option ℕ := none
  query : Option String := none
deriving DecidableEq, Repr

structure PlanStep where
  id : String
  type : StepType
  description : String
  action : Option String := none
  tool : Option String := none
  input : Option StepInput := none
  dependsOn : Option (List String) := none
deriving DecidableEq, Repr

def Plan := List PlanStep

structure TransactionExtraction where
  amount : Option ℚ := none
  currency : Option String := none
  occurredAt : Option String := none
  merchant : Option String := none
  category : Option String := none
  notes : Option String := none
  description : Option String := none
  rawText : Option String := none
  idempotencyKey : Option String := none
deriving DecidableEq, Repr

structure MonthlySummary where
  summary : String
  highlights : List String := []
  savingsOpportunities : List String := []
  followUps : Option (List String) := none
deriving DecidableEq, Repr

inductive ToolStatus
  | success
  | skipped
  | error
deriving DecidableEq, Repr

/-- `ToolExecutionResult`; the `output: any` payload is modelled as an opaque
string. -/
structure ToolExecutionResult where
  tool : String
  status : ToolStatus
  output : Option String := none
  error : Option String := none
deriving DecidableEq, Repr

/-- A value stored in `state.stepResults`. -/
inductive StepValue
  | docs (documents : List RetrievalDocument)
  | extraction (value : TransactionExtraction)
  | summary (value : MonthlySummary)
  | toolResult (value : ToolExecutionResult)
deriving DecidableEq, Repr

/-- `{...(step.input ?? {}), transaction: stepResults["extract-transaction"]}`. -/
structure ToolStepInput where
  base : Option StepInput := none
  transaction : Option StepValue := none
deriving DecidableEq, Repr

structure ToolExecutionContext where
  userId : String
  conversation : List ConversationMessage
  intent : Intent
  retrievedDocuments : List RetrievalDocument
  intermediate : List (String × StepValue)

def ToolHandler := ToolStepInput → ToolExecutionContext → ToolExecutionResult

structure SummarizeMonthInput where
  userId : String
  month : String
  context : List String
  tone : String
deriving DecidableEq, Repr

/-- Provider options that influence the executor control flow (provider and
model names only select the vendor endpoint and are omitted). -/
structure OrchestrationOptions where
  retrievalLimit : Option ℕ := none
  summarizationMonth : Option String := none
  summarizationTone : Option String := none
deriving DecidableEq, Repr

structure OrchestrationRequest where
  userId : String
  conversation : List ConversationMessage
  options : OrchestrationOptions := {}
deriving DecidableEq, Repr

/-- External collaborators of the executor: the vector store, the registered
tools, and the provider calls, modelled as oracle functions. `nowMonth` is
the `new Date().toISOString().slice(0, 7)` fallback month. -/
structure OrchestratorDeps where
  vectorStore : Option (String → List ℚ → ℕ → List RetrievalDocument) := none
  tools : List (String × ToolHandler) := []
  embedOracle : String → List ℚ := fun _ => []
  extractOracle : String → TransactionExtraction := fun _ => {}
  summarizeOracle : SummarizeMonthInput → MonthlySummary :=
    fun _ => { summary := "" }
  chatOracle : List ConversationMessage → String := fun _ => ""
  nowMonth : String := ""

structure ExecutionState where
  retrievedDocuments : List RetrievalDocument := []
  stepResults : List (String × StepValue) := []
  toolResults : List ToolExecutionResult := []
  finalMessage : Option String := none
  resultData : Option StepValue := none
deriving Repr

/-- Record-style assignment `record[key] = value` on an insertion-ordered
association list. -/
def setEntry (l : List (String × α)) (id : String) (v : α) :
    List (String × α) :=
  if l.any (fun p => p.1 == id) then
    l.map (fun p => if p.1 == id then (p.1, v) else p)
  else l ++ [(id, v)]

def lookupStep (l : List (String × StepValue)) (id : String) :
    Option StepValue :=
  (l.find? (fun p => p.1 == id)).map Prod.snd

/-- `latestUserMessage`: walk backwards for the last user turn, else the last
message (the request schema guarantees a non-empty conversation). -/
def latestUserMessage (conversation : List ConversationMessage) :
    Option ConversationMessage :=
  match conversation.reverse.find? (fun m => m.role == MessageRole.user) with
  | some m => some m
  | none => conversation.getLast?

def defaultUserMessage : ConversationMessage := ⟨.user, ""⟩

/-- `buildPlan(intent)`: the fixed intent-to-plan mapping. Note that it
depends only on the intent label, never on the confidence. -/
def buildPlan (intent : Intent) : Plan :=
  match intent.intent with
  | .record_transaction =>
      [{ id := "extract-transaction", type := .llm
         description := "Extract transaction fields from the latest user message"
         action := some "extract-transaction" },
       { id := "persist-transaction", type := .tool
         description := "Persist the extracted transaction for the user"
         tool := some "transactions.create"
         dependsOn := some ["extract-transaction"] },
       { id := "respond-user", type := .synthesis
         description := "Craft a confirmation response for the user"
         dependsOn := some ["persist-transaction"] }]
  | .budget_summary =>
      [{ id := "retrieve-context", type := .retrieval
         description := "Retrieve recent transactions for the monthly summary" },
       { id := "summarize-month", type := .llm
         description := "Summarize the retrieved transactions for the requested month"
         action := some "summarize-month"
         dependsOn := some ["retrieve-context"] },
       { id := "respond-user", type := .synthesis
         description := "Deliver the monthly overview back to the user"
         dependsOn := some ["summarize-month"] }]
  | .general_question =>
      [{ id := "retrieve-context", type := .retrieval
         description := "Retrieve relevant personal finance notes for the user" },
       { id := "respond-user", type := .synthesis
         description := "Answer the question using the retrieved context"
         dependsOn := some ["retrieve-context"] }]
  | .unknown =>
      [{ id := "respond-user", type := .synthesis
         description := "Let the user know their request could not be handled" }]

def executeRetrievalStep (step : PlanStep) (request : OrchestrationRequest)
    (dependencies : OrchestratorDeps) (state : ExecutionState) :
    ExecutionState :=
  match dependencies.vectorStore with
  | none => { state with stepResults := setEntry state.stepResults step.id (.docs []) }
  | some search =>
      let limit := ((step.input.bind StepInput.limit)).getD
        (request.options.retrievalLimit.getD 10)
      let userMessage := (latestUserMessage request.conversation).getD defaultUserMessage
      let query := (step.input.bind StepInput.query).getD userMessage.content
      let embedding := dependencies.embedOracle query
      let documents := search request.userId embedding limit
      let filtered := documents.filter (fun doc => doc.userId == request.userId)
      { state with
          retrievedDocuments := filtered
          stepResults := setEntry state.stepResults step.id (.docs filtered) }

def executeLLMStep (step : PlanStep) (request : OrchestrationRequest)
    (dependencies : OrchestratorDeps) (state : ExecutionState) :
    Except String ExecutionState :=
  match step.action with
  | some "extract-transaction" =>
      let userMessage := (latestUserMessage request.conversation).getD defaultUserMessage
      let extraction :=
        { dependencies.extractOracle userMessage.content with
            rawText := some userMessage.content }
      .ok { state with
              stepResults := setEntry state.stepResults step.id (.extraction extraction) }
  | some "summarize-month" =>
      let month := request.options.summarizationMonth.getD dependencies.nowMonth
      let tone := request.options.summarizationTone.getD "friendly"
      let contextNotes := state.retrievedDocuments.map RetrievalDocument.content
      let summary := dependencies.summarizeOracle
        { userId := request.userId, month := month, context := contextNotes, tone := tone }
      .ok { state with
              stepResults := setEntry state.stepResults step.id (.summary summary) }
  | _ => .error "Unsupported LLM action"

def executeToolStep (step : PlanStep) (request : OrchestrationRequest)
    (intent : Intent) (dependencies : OrchestratorDeps)
    (state : ExecutionState) : Except String ExecutionState :=
  match step.tool with
  | none => .error "Tool step missing tool identifier"
  | some toolName =>
      match (dependencies.tools.find? (fun p => p.1 == toolName)).map Prod.snd with
      | none =>
          let skipped : ToolExecutionResult :=
            { tool := toolName, status := .skipped
              error := some "Tool handler not registered" }
          .ok { state with
                  toolResults := state.toolResults ++ [skipped]
                  stepResults := setEntry state.stepResults step.id (.toolResult skipped) }
      | some toolHandler =>
          let input : ToolStepInput :=
            { base := step.input
              transaction := lookupStep state.stepResults "extract-transaction" }
          let execution := toolHandler input
            { userId := request.userId
              conversation := request.conversation
              intent := intent
              retrievedDocuments := state.retrievedDocuments
              intermediate := state.stepResults }
          .ok { state with
                  toolResults := state.toolResults ++ [execution]
                  stepResults := setEntry state.stepResults step.id (.toolResult execution) }

/-- ASCII apostrophe, used by the synthesis reply templates. -/
def apos : String := (Char.ofNat 39).toString

def executeSynthesisStep (request : OrchestrationRequest) (intent : Intent)
    (dependencies : OrchestratorDeps) (state : ExecutionState) :
    Except String ExecutionState :=
  if state.finalMessage.isSome then .ok state
  else
    match intent.intent with
    | .record_transaction =>
        match lookupStep state.stepResults "extract-transaction" with
        | some (.extraction transaction) =>
            let amount :=
              match transaction.amount with
              | some a => jsToFixed2 a
              | none => "unknown"
            let currency := transaction.currency.getD "IDR"
            let whenStr := transaction.occurredAt.getD "the specified date"
            let merchant := transaction.merchant.getD "the merchant"
            .ok { state with
                    finalMessage := some
                      ("Got it! I" ++ apos ++ "ve recorded " ++ currency ++ " " ++
                        amount ++ " for " ++ merchant ++ " on " ++ whenStr ++
                        ". Anything else you need?")
                    resultData := some (.extraction transaction) }
        | _ => .error "TransactionSchema.parse failed: extraction missing"
    | .budget_summary =>
        match lookupStep state.stepResults "summarize-month" with
        | some (.summary s) =>
            .ok { state with
                    finalMessage := some s.summary
                    resultData := some (.summary s) }
        | _ => .error "MonthlySummarySchema.parse failed: summary missing"
    | .general_question =>
        let context := String.intercalate "\n"
          (state.retrievedDocuments.map (fun doc => "- " ++ doc.content))
        let latest := (latestUserMessage request.conversation).getD defaultUserMessage
        let response := dependencies.chatOracle
          [⟨.system,
            "You are Dompet, a helpful finance assistant. Answer the question using only the provided user data. If the answer is not in the context, say you do not have enough information."⟩,
           ⟨.user, latest.content ++ "\n\nContext:\n" ++
             (if context == "" then "(no context)" else context)⟩]
        .ok { state with
                finalMessage := some response
                resultData := some (.docs state.retrievedDocuments) }
    | .unknown =>
        .ok { state with
                finalMessage := some
                  ("I" ++ apos ++ "m not sure how to help with that yet, but I" ++
                    apos ++ "m learning more every day!") }

/-- One iteration of the `for (const step of plan)` loop, including the
dependency check. -/
def executeStep (request : OrchestrationRequest) (intent : Intent)
    (dependencies : OrchestratorDeps) (state : ExecutionState)
    (step : PlanStep) : Except String ExecutionState := do
  let state ←
    match step.dependsOn with
    | some requires' =>
        let unmet := requires'.filter
          (fun dep => ¬ state.stepResults.any (fun p => p.1 == dep))
        if unmet.isEmpty then pure state
        else .error ("Plan dependency unmet for step " ++ step.id ++ ": " ++
          String.intercalate ", " unmet)
    | none => pure state
  match step.type with
  | .retrieval => pure (executeRetrievalStep step request dependencies state)
  | .llm => executeLLMStep step request dependencies state
  | .tool => executeToolStep step request intent dependencies state
  | .synthesis => executeSynthesisStep request intent dependencies state

/-- `executePlan`: executes the steps in order and runs the synthesis
fallback when no final message was produced. Note: there is no inspection of
`intent.confidence` anywhere in the executor. -/
def executePlan (plan : Plan) (request : OrchestrationRequest)
    (intent : Intent) (dependencies : OrchestratorDeps) :
    Except String ExecutionState := do
  let state ← plan.foldlM (executeStep request intent dependencies) {}
  if state.finalMessage.isSome then pure state
  else executeSynthesisStep request intent dependencies state

/-! ## API layer (src/api/v1/index.ts) -/

/-- The clarifying followup attached by the `/chat` route:
present exactly when `result.intent.confidence < 0.4`. -/
def clarifyFollowupSentence : String :=
  "Could you clarify your request so I can recommend the right action?"

def chatFollowup (confidence : ℚ) : Option String :=
  if confidence < 2/5 then some clarifyFollowupSentence else none

/-- Character-level splitter (Lean's `String.splitOn` is byte-position based
and does not reduce in the kernel; this is the same split on a separator
character, accumulating the current field in reverse). -/
def splitOnChar (sep : Char) : List Char → List Char → List (List Char)
  | [], acc => [acc.reverse]
  | c :: rest, acc =>
      if c = sep then acc.reverse :: splitOnChar sep rest []
      else splitOnChar sep rest (c :: acc)

/-- `value.trim()`: strip whitespace from both ends. -/
def jsTrim (s : String) : String :=
  ⟨((s.data.dropWhile Char.isWhitespace).reverse.dropWhile Char.isWhitespace).reverse⟩

/-- `value.toLowerCase()` (character-wise). -/
def jsToLower (s : String) : String := ⟨s.data.map Char.toLower⟩

/-- `row.split(",").map(v => v.trim())`. -/
def jsSplitTrim (row : String) : List String :=
  (splitOnChar ',' row.data []).map (fun cs => jsTrim ⟨cs⟩)

/-- Digit-string accumulator (returns `some 0` on the empty list; callers
distinguish the empty cases). -/
def parseNatDigits (cs : List Char) : Option ℕ :=
  cs.foldl
    (fun acc c =>
      match acc with
      | none => none
      | some n => if c.isDigit then some (n * 10 + (c.toNat - 48)) else none)
    (some 0)

/-- `Number(field)` on a trimmed CSV cell: `undefined` and non-numeric text
give NaN (`none`), the empty string gives 0, plain signed decimal literals
parse exactly. (Exponent, hexadecimal and Infinity forms are not exercised
by the CSV route and are mapped to `none`.) -/
def jsNumber (field : Option String) : Option ℚ :=
  match field with
  | none => none
  | some s =>
      if s = "" then some 0
      else
        let sgn : ℚ := if s.data.head? = some '-' then -1 else 1
        let rest :=
          match s.data with
          | '-' :: cs => cs
          | '+' :: cs => cs
          | cs => cs
        match splitOnChar '.' rest [] with
        | [intPart] =>
            if intPart.isEmpty then none
            else (parseNatDigits intPart).map (fun n => sgn * n)
        | [intPart, fracPart] =>
            if intPart.isEmpty ∧ fracPart.isEmpty then none
            else
              match parseNatDigits intPart, parseNatDigits fracPart with
              | some n, some f =>
                  some (sgn * ((n : ℚ) + (f : ℚ) / (10 : ℚ) ^ fracPart.length))
              | _, _ => none
        | _ => none

def allowedTypeStrings : List String :=
  ["income", "expense", "investment", "debt", "transfer"]

/-- The coercion of a recognised type string (callers guard membership in
`allowedTypeStrings`; the default arm is unreachable under that guard). -/
def csvTypeOf (s : String) : TransactionType :=
  if s == "income" then .income
  else if s == "expense" then .expense
  else if s == "investment" then .investment
  else if s == "debt" then .debt
  else if s == "transfer" then .transfer
  else .expense

/-- One row of the `/upload-csv` handler body (columns
`date,description,amount,type,category`): non-finite amounts abort with
`INVALID_AMOUNT`; a missing or unrecognised type cell is silently replaced by
`"expense"`; a missing date interpolates as the string `"undefined"`. -/
def parseCsvRow (row : String) : Except String Transaction :=
  let fields := jsSplitTrim row
  let date := fields[0]?
  let description := fields[1]?
  let amountRaw := fields[2]?
  let typeField := fields[3]?
  let category := fields[4]?
  match jsNumber amountRaw with
  | none => .error "INVALID_AMOUNT"
  | some amount =>
      let normalizedType := (typeField.map jsToLower).getD "expense"
      let finalType :=
        if allowedTypeStrings.contains normalizedType then csvTypeOf normalizedType
        else .expense
      let descriptionWithDate :=
        match description with
        | some d =>
            if d ≠ "" then some (d ++ " (" ++ date.getD "undefined" ++ ")")
            else date
        | none => date
      .ok { amount := amount
            type := finalType
            category :=
              match category with
              | some c => if c = "" then none else some c
              | none => none
            description := descriptionWithDate }

/-- The disjunction of the five KPI-gap rule triggers of `suggestActions`
(the conditions of the five pushes, without the always-true `hasAction`
freshness re-checks). -/
def anyGapRuleFires (insight : MonthlyInsight) (health : HealthScoreResult) : Bool :=
  let kpis := insight.kpis
  decide (kv kpis.savingsRate < (kpis.savingsRate.bind KPIValue.goal).getD (2/10)) ||
  decide (kv kpis.expenseRatio > (kpis.expenseRatio.bind KPIValue.goal).getD (5/10)) ||
  decide (kv kpis.debtToIncome > (kpis.debtToIncome.bind KPIValue.goal).getD (35/100)) ||
  decide (kv kpis.investmentRate < (kpis.investmentRate.bind KPIValue.goal).getD (15/100)) ||
  (match health.components.find? (fun component => component.key == "cashFlow") with
   | some component => decide (kv kpis.income > 0) && decide (component.score < 1/2)
   | none => false)

/-! ## Concrete example inputs used by witnesses and counterexamples -/

/-- An income/expense month whose expense ratio reaches the computation's
upper clamp of 2, beyond the simulator's refresh clamp of 1.5. -/
def c1Input : MonthlyComputationInput :=
  { userId := "u", month := "2024-05",
    transactions := [{ amount := 100, type := .income }, { amount := 200, type := .expense }] }

/-- A plain income month within every simulator clamp. -/
def c1WitnessInput : MonthlyComputationInput :=
  { userId := "u", month := "2024-05",
    transactions := [{ amount := 100, type := .income }] }

/-- A month with a single expense and no income transactions. -/
def c5Input : MonthlyComputationInput :=
  { userId := "u", month := "2024-06",
    transactions := [{ amount := -50, type := .expense, category := some "food" }] }

/-- A KPI set meeting every suggester goal, used with an empty component
list so that no rule fires. -/
def c9Insight : MonthlyInsight :=
  { id := "u:2024-07", userId := "u", month := "2024-07",
    kpis := { income := some ⟨"income", "Total income", 10, some .currency, none, none⟩,
              savingsRate := some ⟨"savingsRate", "Savings rate", 1/2, some .ratio, none, none⟩,
              expenseRatio := some ⟨"expenseRatio", "Expense ratio", 1/10, some .ratio, none, none⟩,
              debtToIncome := some ⟨"debtToIncome", "Debt-to-income", 0, some .ratio, none, none⟩,
              investmentRate := some ⟨"investmentRate", "Investment rate", 1/5, some .ratio, none, none⟩ },
    story := "", createdAt := "" }

def c9Health : HealthScoreResult := { total := 1, components := [], notes := [] }

/-- A stored embedding, its insight, and the retrieval document the vector
store builds from them, used to exercise the search. -/
def c4Embedding : EmbeddingRecord :=
  { id := "u:2024-05", vector := [1],
    metadata := { userId := "u", month := "2024-05", kpiKeys := [] } }

def c4Insight : MonthlyInsight :=
  { id := "u:2024-05", userId := "u", month := "2024-05", kpis := {},
    story := "story", createdAt := "t" }

def c4Doc : RetrievalDocument :=
  { id := "u:2024-05", userId := "u", content := "story",
    metadata := some ⟨"u", [], 0, "2024-05", {}⟩ }

/-- A one-turn chat request, a registered transactions.create handler and
its result, used to drive the executor. -/
def c3Request : OrchestrationRequest :=
  { userId := "u", conversation := [⟨.user, "I spent 125000 on lunch"⟩] }

def c3ToolResult : ToolExecutionResult :=
  { tool := "transactions.create", status := .success, output := some "persisted" }

def c3DepsWith (r : ToolExecutionResult) : OrchestratorDeps :=
  { tools := [("transactions.create", fun _ _ => r)],
    extractOracle := fun _ => { amount := some 125000, currency := some "IDR" } }

def c3Deps : OrchestratorDeps := c3DepsWith c3ToolResult

end Dompet

namespace Dompet

/-! ## Supporting lemmas -/

theorem foldl_add_abs (l : List Transaction) (c : ℚ) :
    l.foldl (fun total tr => total + |tr.amount|) c =
      c + (l.map (fun tr => |tr.amount|)).sum := by
  induction l generalizing c with
  | nil => simp
  | cons hd tl ih => simp [ih, add_assoc]

theorem sum_nonneg (l : List Transaction) (t : TransactionType) :
    0 ≤ sum l t := by
  unfold sum
  rw [foldl_add_abs]
  have : 0 ≤ ((l.filter (fun tr => tr.type == t)).map (fun tr => |tr.amount|)).sum := by
    apply List.sum_nonneg
    intro x hx
    obtain ⟨tr, _, rfl⟩ := List.mem_map.mp hx
    exact abs_nonneg _
  linarith

theorem clamp_hi_congr (x a b : ℚ) (hx : x ≤ a) (ha : 0 ≤ a) (hab : a ≤ b) :
    clamp x 0 a = clamp x 0 b := by
  unfold clamp
  have h1 : max x 0 ≤ a := max_le hx ha
  rw [min_eq_left h1, min_eq_left (h1.trans hab)]

theorem fitStoryLength_bounds (s : String) :
    200 ≤ (fitStoryLength s).length ∧ (fitStoryLength s).length ≤ 400 := by
  unfold fitStoryLength
  by_cases h : s.length > 400
  · have hlen : (jsSlice s 397 ++ "...").length = 400 := by
      have h1 : (jsSlice s 397).length = min 397 s.length := by
        show (s.data.take 397).length = min 397 s.data.length
        exact List.length_take 397 s.data
      rw [String.length_append, h1]
      have : min 397 s.length = 397 := by omega
      rw [this]
      rfl
    rw [if_pos h, if_neg (by rw [hlen]; omega), hlen]
    omega
  · simp only [if_neg h]
    by_cases h2 : s.length < 200
    · have hpad : (padEndDot s 200).length = 200 := by
        show (s.data ++ List.replicate (200 - s.data.length) '.').length = 200
        rw [List.length_append, List.length_replicate]
        have : s.data.length = s.length := rfl
        omega
      rw [if_pos h2, hpad]
      omega
    · simp only [if_neg h2]
      omega

theorem filter_type_of_filter_ne_transfer (l : List Transaction)
    (t : TransactionType) (ht : t ≠ TransactionType.transfer) :
    (l.filter (fun tr => !(tr.type == TransactionType.transfer))).filter
        (fun tr => tr.type == t) =
      l.filter (fun tr => tr.type == t) := by
  induction l with
  | nil => rfl
  | cons hd tl ih =>
      by_cases h : hd.type = t
      · have hne : hd.type ≠ TransactionType.transfer := h ▸ ht
        simp [List.filter_cons, h, hne, ht, Ne.symm ht, ih]
      · by_cases htr : hd.type = TransactionType.transfer
        · simp [List.filter_cons, h, htr, ht, Ne.symm ht, ih]
        · simp [List.filter_cons, h, htr, ht, Ne.symm ht, ih]

theorem sum_filter_ne_transfer (l : List Transaction) (t : TransactionType)
    (ht : t ≠ TransactionType.transfer) :
    sum (l.filter (fun tr => !(tr.type == TransactionType.transfer))) t =
      sum l t := by
  unfold sum
  rw [filter_type_of_filter_ne_transfer l t ht]

theorem deriveTop_filter_ne_transfer (l : List Transaction) :
    deriveTopExpenseCategory
        (l.filter (fun tr => !(tr.type == TransactionType.transfer))) =
      deriveTopExpenseCategory l := by
  unfold deriveTopExpenseCategory
  rw [filter_type_of_filter_ne_transfer l TransactionType.expense (by decide)]

theorem refreshDerived_computeMonthly (input : MonthlyComputationInput)
    (hInv : 0 < sum input.transactions TransactionType.income →
      sum input.transactions TransactionType.investment ≤
        6/5 * sum input.transactions TransactionType.income)
    (hExp : 0 < sum input.transactions TransactionType.income →
      sum input.transactions TransactionType.expense ≤
        3/2 * sum input.transactions TransactionType.income) :
    refreshDerived (computeMonthlyKpis input) = computeMonthlyKpis input := by
  rcases lt_or_le 0 (sum input.transactions TransactionType.income) with hpos | hle
  · have hE := sum_nonneg input.transactions TransactionType.expense
    have hsav : (sum input.transactions TransactionType.income -
        sum input.transactions TransactionType.expense) /
          sum input.transactions TransactionType.income ≤ 1 := by
      rw [div_le_one hpos]
      linarith
    have hinv : sum input.transactions TransactionType.investment /
        sum input.transactions TransactionType.income ≤ 6/5 := by
      rw [div_le_iff₀ hpos]
      have := hInv hpos
      linarith
    have hexp : sum input.transactions TransactionType.expense /
        sum input.transactions TransactionType.income ≤ 3/2 := by
      rw [div_le_iff₀ hpos]
      have := hExp hpos
      linarith
    simp only [refreshDerived, computeMonthlyKpis, kv, hpos, if_pos]
    simp [hpos]
    refine ⟨clamp_hi_congr _ (12/10) (3/2) (by linarith) (by norm_num) (by norm_num),
      clamp_hi_congr _ (12/10) (3/2) (by linarith) (by norm_num) (by norm_num),
      clamp_hi_congr _ (15/10) 2 (by linarith) (by norm_num) (by norm_num)⟩
  · have h0 : sum input.transactions TransactionType.income = 0 :=
      le_antisymm hle (sum_nonneg _ _)
    simp [refreshDerived, computeMonthlyKpis, kv, h0]

/-! ## Claim theorems -/

/-- C6: for every month string and KPI set, the narrative story produced by
`craftMonthlyStory` has length between 200 and 400 characters inclusive
(dot-padded below 200, ellipsis-truncated above 400). -/
theorem craft_story_length (month : String) (kpis : KPISet) :
    200 ≤ (craftMonthlyStory month kpis).length ∧
      (craftMonthlyStory month kpis).length ≤ 400 := by
  unfold craftMonthlyStory
  exact fitStoryLength_bounds _

/-- C5: when the transactions carry no income (income aggregate 0), all four
rate KPIs of the computed insight are 0 and the cash-flow component score is
0.5. -/
theorem income_zero_rates (input : MonthlyComputationInput)
    (h : sum input.transactions TransactionType.income = 0) :
    kv (computeMonthlyKpis input).savingsRate = 0 ∧
    kv (computeMonthlyKpis input).investmentRate = 0 ∧
    kv (computeMonthlyKpis input).debtToIncome = 0 ∧
    kv (computeMonthlyKpis input).expenseRatio = 0 ∧
    scoreCashFlow (computeMonthlyKpis input) = 1/2 := by
  simp [computeMonthlyKpis, kv, scoreCashFlow, h]

/-- C5 witness: the income-free example month. -/
theorem income_zero_rates_witness :
    sum c5Input.transactions TransactionType.income = 0 ∧
    (kv (computeMonthlyKpis c5Input).savingsRate = 0 ∧
    kv (computeMonthlyKpis c5Input).investmentRate = 0 ∧
    kv (computeMonthlyKpis c5Input).debtToIncome = 0 ∧
    kv (computeMonthlyKpis c5Input).expenseRatio = 0 ∧
    scoreCashFlow (computeMonthlyKpis c5Input) = 1/2) :=
  ⟨rfl, income_zero_rates c5Input rfl⟩

/-- C8: transfer-type transactions have no effect on the monthly KPI
computation: filtering them out of the input leaves every KPI unchanged. -/
theorem transfer_no_effect (input : MonthlyComputationInput) :
    computeMonthlyKpis { input with transactions := input.transactions.filter (fun tr => !(tr.type == TransactionType.transfer)) } =
      computeMonthlyKpis input := by
  unfold computeMonthlyKpis
  rw [sum_filter_ne_transfer input.transactions TransactionType.income (by decide),
    sum_filter_ne_transfer input.transactions TransactionType.expense (by decide),
    sum_filter_ne_transfer input.transactions TransactionType.investment (by decide),
    sum_filter_ne_transfer input.transactions TransactionType.debt (by decide),
    deriveTop_filter_ne_transfer input.transactions]

/-- C1 counterexample: simulating with an empty action list is not the
identity on the KPI set: for the computed month with income 100 and expenses
200 the expense ratio 2 is re-clamped to 1.5 by the simulator's
`refreshDerived` pass. -/
theorem simulate_empty_not_identity :
    (simulateAdjustments (computeMonthlyMemory "2024-05-31" c1Input) []).projectedInsight.kpis ≠
      (computeMonthlyMemory "2024-05-31" c1Input).kpis := by
  intro h
  have h2 := congrArg (fun k => kv k.expenseRatio) h
  simp only [simulateAdjustments, computeMonthlyMemory, computeMonthlyKpis,
    ensureDebtOutstanding, refreshDerived, c1Input, sum, kv, clamp,
    List.foldl_nil, deriveTopExpenseCategory, List.filter, List.foldl] at h2
  norm_num at h2

/-- C1 (amended): simulation with an empty action list preserves the computed
KPI set whenever the investment rate and expense ratio lie within the
simulator's tighter refresh clamps (investments ≤ 1.2·income and expenses ≤
1.5·income when income is positive); outside those bounds `refreshDerived`
re-clamps them. -/
theorem simulate_empty_id (now : String) (input : MonthlyComputationInput)
    (hInv : 0 < sum input.transactions TransactionType.income →
      sum input.transactions TransactionType.investment ≤
        6/5 * sum input.transactions TransactionType.income)
    (hExp : 0 < sum input.transactions TransactionType.income →
      sum input.transactions TransactionType.expense ≤
        3/2 * sum input.transactions TransactionType.income) :
    (simulateAdjustments (computeMonthlyMemory now input) []).projectedInsight.kpis =
      (computeMonthlyMemory now input).kpis := by
  have hens : ensureDebtOutstanding (computeMonthlyMemory now input) =
      computeMonthlyMemory now input := by
    simp [ensureDebtOutstanding, computeMonthlyMemory, computeMonthlyKpis]
  simp only [simulateAdjustments, List.foldl_nil, hens]
  simp only [computeMonthlyMemory]
  exact refreshDerived_computeMonthly input hInv hExp

/-- C1 witness: the plain income month satisfies both clamp bounds and the
empty simulation leaves its KPI set unchanged. -/
theorem simulate_empty_id_witness :
    (0 < sum c1WitnessInput.transactions TransactionType.income →
      sum c1WitnessInput.transactions TransactionType.investment ≤
        6/5 * sum c1WitnessInput.transactions TransactionType.income) ∧
    (0 < sum c1WitnessInput.transactions TransactionType.income →
      sum c1WitnessInput.transactions TransactionType.expense ≤
        3/2 * sum c1WitnessInput.transactions TransactionType.income) ∧
    (simulateAdjustments (computeMonthlyMemory "x" c1WitnessInput) []).projectedInsight.kpis =
      (computeMonthlyMemory "x" c1WitnessInput).kpis := by
  have eInc : sum c1WitnessInput.transactions TransactionType.income = 100 := by
    show (0 : ℚ) + |(100 : ℚ)| = 100
    norm_num
  have eInv : sum c1WitnessInput.transactions TransactionType.investment = 0 := rfl
  have eExp : sum c1WitnessInput.transactions TransactionType.expense = 0 := rfl
  have h1 : 0 < sum c1WitnessInput.transactions TransactionType.income →
      sum c1WitnessInput.transactions TransactionType.investment ≤
        6/5 * sum c1WitnessInput.transactions TransactionType.income := by
    intro _
    rw [eInv, eInc]
    norm_num
  have h2 : 0 < sum c1WitnessInput.transactions TransactionType.income →
      sum c1WitnessInput.transactions TransactionType.expense ≤
        3/2 * sum c1WitnessInput.transactions TransactionType.income := by
    intro _
    rw [eExp, eInc]
    norm_num
  exact ⟨h1, h2, simulate_empty_id "x" c1WitnessInput h1 h2⟩


theorem map_id_if_append {c : Prop} [Decidable c]
    (actions : List SuggestedAction) (a : SuggestedAction) (L : List String)
    (s : String) (ha : a.id = s)
    (h : (actions.map SuggestedAction.id).Sublist L) :
    ((if c then actions ++ [a] else actions).map SuggestedAction.id).Sublist
      (L ++ [s]) := by
  split
  · rw [List.map_append]
    exact List.Sublist.append h (by simp [ha])
  · exact h.trans (List.sublist_append_left L _)

theorem pushSavingsRule_sublist (kpis : KPISet) (l : List SuggestedAction)
    (L : List String) (h : (l.map SuggestedAction.id).Sublist L) :
    ((pushSavingsRule kpis l).map SuggestedAction.id).Sublist
      (L ++ ["improve-savings"]) := by
  unfold pushSavingsRule
  exact map_id_if_append l _ L _ rfl h

theorem pushExpenseRule_sublist (kpis : KPISet) (l : List SuggestedAction)
    (L : List String) (h : (l.map SuggestedAction.id).Sublist L) :
    ((pushExpenseRule kpis l).map SuggestedAction.id).Sublist
      (L ++ ["optimize-expenses"]) := by
  unfold pushExpenseRule
  exact map_id_if_append l _ L _ rfl h

theorem pushDebtRule_sublist (kpis : KPISet) (l : List SuggestedAction)
    (L : List String) (h : (l.map SuggestedAction.id).Sublist L) :
    ((pushDebtRule kpis l).map SuggestedAction.id).Sublist
      (L ++ ["accelerate-debt"]) := by
  unfold pushDebtRule
  exact map_id_if_append l _ L _ rfl h

theorem pushInvestmentRule_sublist (kpis : KPISet) (l : List SuggestedAction)
    (L : List String) (h : (l.map SuggestedAction.id).Sublist L) :
    ((pushInvestmentRule kpis l).map SuggestedAction.id).Sublist
      (L ++ ["boost-investments"]) := by
  unfold pushInvestmentRule
  exact map_id_if_append l _ L _ rfl h

theorem pushIncomeRule_sublist (kpis : KPISet) (health : HealthScoreResult)
    (l : List SuggestedAction) (L : List String)
    (h : (l.map SuggestedAction.id).Sublist L) :
    ((pushIncomeRule kpis health l).map SuggestedAction.id).Sublist
      (L ++ ["grow-income"]) := by
  unfold pushIncomeRule
  rcases hfind : health.components.find? (fun component => component.key == "cashFlow") with _ | comp <;>
    simp only [hfind]
  · exact h.trans (List.sublist_append_left L _)
  · exact map_id_if_append l _ L _ rfl h

/-- C9: for every insight and health score, suggestActions returns a
non-empty list with pairwise distinct action ids, and when none of the five
KPI-gap rules fires it returns exactly the single stay-the-course action. -/
theorem suggestActions_spec (insight : MonthlyInsight) (health : HealthScoreResult) :
    suggestActions insight health ≠ [] ∧
    ((suggestActions insight health).map SuggestedAction.id).Nodup ∧
    (anyGapRuleFires insight health = false →
      suggestActions insight health = [stayTheCourseAction]) := by
  refine ⟨?_, ?_, ?_⟩
  · simp only [suggestActions]
    split
    · simp
    · next h => simpa using h
  · simp only [suggestActions]
    split
    · simp [stayTheCourseAction]
    · have hsub := pushIncomeRule_sublist insight.kpis health _ _
        (pushInvestmentRule_sublist insight.kpis _ _
          (pushDebtRule_sublist insight.kpis _ _
            (pushExpenseRule_sublist insight.kpis _ _
              (pushSavingsRule_sublist insight.kpis [] []
                (by simp)))))
      have hsub2 : ((pushIncomeRule insight.kpis health
          (pushInvestmentRule insight.kpis
            (pushDebtRule insight.kpis
              (pushExpenseRule insight.kpis
                (pushSavingsRule insight.kpis []))))).map SuggestedAction.id).Sublist
          ["improve-savings", "optimize-expenses", "accelerate-debt",
            "boost-investments", "grow-income"] := by
        simpa using hsub
      exact List.Nodup.sublist hsub2 (by decide)
  · intro hno
    rcases hfind : health.components.find? (fun component => component.key == "cashFlow") with _ | comp <;>
      simp only [anyGapRuleFires, hfind, Bool.or_eq_false_iff, Bool.and_eq_false_iff,
        decide_eq_false_iff_not] at hno
    · have h1 : ¬ kv insight.kpis.savingsRate <
          (insight.kpis.savingsRate.bind KPIValue.goal).getD (2/10) := by tauto
      have h2 : ¬ kv insight.kpis.expenseRatio >
          (insight.kpis.expenseRatio.bind KPIValue.goal).getD (5/10) := by tauto
      have h3 : ¬ kv insight.kpis.debtToIncome >
          (insight.kpis.debtToIncome.bind KPIValue.goal).getD (35/100) := by tauto
      have h4 : ¬ kv insight.kpis.investmentRate <
          (insight.kpis.investmentRate.bind KPIValue.goal).getD (15/100) := by tauto
      have e1 : pushSavingsRule insight.kpis [] = [] := by
        simp only [pushSavingsRule]
        rw [if_neg (fun hc => h1 hc.1)]
      have e2 : pushExpenseRule insight.kpis [] = [] := by
        simp only [pushExpenseRule]
        rw [if_neg (fun hc => h2 hc.1)]
      have e3 : pushDebtRule insight.kpis [] = [] := by
        simp only [pushDebtRule]
        rw [if_neg (fun hc => h3 hc.1)]
      have e4 : pushInvestmentRule insight.kpis [] = [] := by
        simp only [pushInvestmentRule]
        rw [if_neg (fun hc => h4 hc.1)]
      have e5 : pushIncomeRule insight.kpis health [] = [] := by
        simp only [pushIncomeRule, hfind]
      simp [suggestActions, e1, e2, e3, e4, e5]
    · have h1 : ¬ kv insight.kpis.savingsRate <
          (insight.kpis.savingsRate.bind KPIValue.goal).getD (2/10) := by tauto
      have h2 : ¬ kv insight.kpis.expenseRatio >
          (insight.kpis.expenseRatio.bind KPIValue.goal).getD (5/10) := by tauto
      have h3 : ¬ kv insight.kpis.debtToIncome >
          (insight.kpis.debtToIncome.bind KPIValue.goal).getD (35/100) := by tauto
      have h4 : ¬ kv insight.kpis.investmentRate <
          (insight.kpis.investmentRate.bind KPIValue.goal).getD (15/100) := by tauto
      have h5 : ¬ (0 < kv insight.kpis.income ∧ comp.score < 1/2) := by tauto
      have e1 : pushSavingsRule insight.kpis [] = [] := by
        simp only [pushSavingsRule]
        rw [if_neg (fun hc => h1 hc.1)]
      have e2 : pushExpenseRule insight.kpis [] = [] := by
        simp only [pushExpenseRule]
        rw [if_neg (fun hc => h2 hc.1)]
      have e3 : pushDebtRule insight.kpis [] = [] := by
        simp only [pushDebtRule]
        rw [if_neg (fun hc => h3 hc.1)]
      have e4 : pushInvestmentRule insight.kpis [] = [] := by
        simp only [pushInvestmentRule]
        rw [if_neg (fun hc => h4 hc.1)]
      have e5 : pushIncomeRule insight.kpis health [] = [] := by
        simp only [pushIncomeRule, hfind]
        rw [if_neg (fun hc => h5 ⟨hc.1, hc.2.1⟩)]
      simp [suggestActions, e1, e2, e3, e4, e5]


/-- C9 witness: a goal-meeting month where no rule fires. -/
theorem suggestActions_spec_witness :
    anyGapRuleFires c9Insight c9Health = false ∧
    suggestActions c9Insight c9Health = [stayTheCourseAction] := by
  have hno : anyGapRuleFires c9Insight c9Health = false := by
    norm_num [anyGapRuleFires, c9Insight, c9Health, kv]
  exact ⟨hno, (suggestActions_spec c9Insight c9Health).2.2 hno⟩

/-- C10: a CSV upload row whose type column is missing or not one of the
five recognised transaction types is not rejected: given a parsable amount
the row succeeds and its type is silently coerced to "expense" (and is
therefore counted in the expenses aggregate of the monthly computation). -/
theorem csv_unknown_type_coerced (row : String)
    (htype : ∀ t, (jsSplitTrim row)[3]? = some t →
      ¬ allowedTypeStrings.contains (jsToLower t))
    (a : ℚ) (hamt : jsNumber (jsSplitTrim row)[2]? = some a) :
    ∃ tx : Transaction, parseCsvRow row = .ok tx ∧
      tx.type = TransactionType.expense ∧ tx.amount = a := by
  simp only [parseCsvRow]
  rw [hamt]
  refine ⟨_, rfl, ?_, rfl⟩
  rcases hty : (jsSplitTrim row)[3]? with _ | t
  · simp [hty, allowedTypeStrings, csvTypeOf]
  · simp only [hty, Option.map_some', Option.getD_some]
    rw [if_neg (htype t hty)]

/-- C10 witness: the row with unrecognised type "snack". -/
theorem csv_unknown_type_coerced_witness :
    (∀ t, (jsSplitTrim "2024-05-01, lunch , 12.5, snack, food")[3]? = some t →
      ¬ allowedTypeStrings.contains (jsToLower t)) ∧
    jsNumber (jsSplitTrim "2024-05-01, lunch , 12.5, snack, food")[2]? = some (25/2) ∧
    (∃ tx : Transaction,
      parseCsvRow "2024-05-01, lunch , 12.5, snack, food" = .ok tx ∧
      tx.type = TransactionType.expense ∧ tx.amount = 25/2) := by
  have h1 : ∀ t, (jsSplitTrim "2024-05-01, lunch , 12.5, snack, food")[3]? = some t →
      ¬ allowedTypeStrings.contains (jsToLower t) := by
    intro t ht
    have hsnack : t = "snack" := by
      have : (jsSplitTrim "2024-05-01, lunch , 12.5, snack, food")[3]? = some "snack" := by decide
      rw [this] at ht
      exact (Option.some_inj.mp ht).symm
    subst hsnack
    decide
  have h2 : jsNumber (jsSplitTrim "2024-05-01, lunch , 12.5, snack, food")[2]? = some (25/2) := by
    have : (jsSplitTrim "2024-05-01, lunch , 12.5, snack, food")[2]? = some "12.5" := by decide
    rw [this]
    simp +decide [jsNumber, parseNatDigits, splitOnChar]
    norm_num
  exact ⟨h1, h2, csv_unknown_type_coerced _ h1 _ h2⟩


/-- C7 counterexample: when every provider call fails, the embedding router's
retry loop does not make exactly RETRIES = 3 attempts: the counter only
aborts once the incremented attempt count exceeds RETRIES, so a fourth call
happens. -/
theorem withRetry_not_three_attempts :
    ¬ ((withRetry (fun _ => (Except.error "timeout" : Except String Unit))).calls = RETRIES) := by
  simp [withRetry, withRetryGo, RETRIES, INITIAL_DELAY, BACKOFF]

/-- C7 (amended): when every call fails, `withRetry` invokes the operation
exactly RETRIES + 1 = 4 times, sleeping 200ms, 400ms and 800ms between the
attempts (exponential backoff, factor 2, from the 200ms initial delay), and
surfaces the error of the last attempt. -/
theorem withRetry_exhaustion {α : Type} (e : ℕ → String) (fn : ℕ → Except String α)
    (h : ∀ i, fn i = .error (e i)) :
    (withRetry fn).result = .error (e 3) ∧
    (withRetry fn).calls = 4 ∧
    (withRetry fn).delays = [200, 400, 800] := by
  have h0 := h 0
  have h1 := h 1
  have h2 := h 2
  have h3 := h 3
  simp [withRetry, withRetryGo, RETRIES, INITIAL_DELAY, BACKOFF, h0, h1, h2, h3]
  norm_num

/-- C7 witness: the always-failing operation. -/
theorem withRetry_exhaustion_witness :
    (∀ i, (fun (j : ℕ) => (Except.error (toString j) : Except String Unit)) i =
      .error (toString i)) ∧
    ((withRetry (fun (j : ℕ) => (Except.error (toString j) : Except String Unit))).result =
        .error (toString 3) ∧
      (withRetry (fun (j : ℕ) => (Except.error (toString j) : Except String Unit))).calls = 4 ∧
      (withRetry (fun (j : ℕ) => (Except.error (toString j) : Except String Unit))).delays =
        [200, 400, 800]) :=
  ⟨fun _ => rfl, withRetry_exhaustion (fun j => toString j) _ (fun _ => rfl)⟩

/-- C2 counterexample: on a hash conflict the second invocation returns
IDEMPOTENCY_CONFLICT but the stored state is NOT unchanged: the upsert's
ON CONFLICT DO UPDATE refreshes `lockedAt` before the hash check. -/
theorem idempotency_conflict_mutates_store :
    (performIdempotentOperation (performIdempotentOperation ([] : List (IdempotencyRecord ℕ)) "t" "k" "h1" 0 1 10).store "t" "k" "h2" 1 2 20).outcome = IdemOutcome.conflict "h1" ∧
    (performIdempotentOperation (performIdempotentOperation ([] : List (IdempotencyRecord ℕ)) "t" "k" "h1" 0 1 10).store "t" "k" "h2" 1 2 20).store ≠
      (performIdempotentOperation ([] : List (IdempotencyRecord ℕ)) "t" "k" "h1" 0 1 10).store := by
  decide

/-- C2 (amended): for two sequential invocations with the same
(tenantId, idempotencyKey): with equal request hashes the second returns the
stored response of the first with replayed = true and without running the
resolver; with differing hashes it returns IDEMPOTENCY_CONFLICT without
running the resolver, and the stored record keeps its requestHash and
responsePayload, with only `lockedAt` refreshed to the new call time. -/
theorem performIdempotent_second_call {α : Type} (tenant key h1 h2 : String)
    (now1 now2 : ℚ) (id1 id2 : ℕ) (exec1 exec2 : α) (hne : h1 ≠ "") :
    (performIdempotentOperation
        (performIdempotentOperation ([] : List (IdempotencyRecord α)) tenant key h1 now1 id1 exec1).store
        tenant key h1 now2 id2 exec2).outcome = IdemOutcome.ok exec1 true ∧
    (performIdempotentOperation
        (performIdempotentOperation ([] : List (IdempotencyRecord α)) tenant key h1 now1 id1 exec1).store
        tenant key h1 now2 id2 exec2).executorRan = false ∧
    (h2 ≠ h1 →
      (performIdempotentOperation
          (performIdempotentOperation ([] : List (IdempotencyRecord α)) tenant key h1 now1 id1 exec1).store
          tenant key h2 now2 id2 exec2).outcome = IdemOutcome.conflict h1 ∧
      (performIdempotentOperation
          (performIdempotentOperation ([] : List (IdempotencyRecord α)) tenant key h1 now1 id1 exec1).store
          tenant key h2 now2 id2 exec2).executorRan = false ∧
      (performIdempotentOperation
          (performIdempotentOperation ([] : List (IdempotencyRecord α)) tenant key h1 now1 id1 exec1).store
          tenant key h2 now2 id2 exec2).store =
        [{ id := id1, tenantId := tenant, idempotencyKey := key, requestHash := h1,
           responsePayload := some exec1, lockedAt := some now2, createdAt := now1 }]) := by
  have hrun1 : (performIdempotentOperation ([] : List (IdempotencyRecord α)) tenant key h1 now1 id1 exec1).store =
      [{ id := id1, tenantId := tenant, idempotencyKey := key, requestHash := h1,
         responsePayload := some exec1, lockedAt := none, createdAt := now1 }] := by
    simp [performIdempotentOperation, insertIdemOnConflict]
  refine ⟨?_, ?_, ?_⟩
  · rw [hrun1]
    simp [performIdempotentOperation, insertIdemOnConflict]
  · rw [hrun1]
    simp [performIdempotentOperation, insertIdemOnConflict]
  · intro hconf
    rw [hrun1]
    simp [performIdempotentOperation, insertIdemOnConflict, hne, Ne.symm hconf]


/-- C2 witness: concrete replay and conflict runs. -/
theorem performIdempotent_second_call_witness :
    ("a" : String) ≠ "" ∧
    ("b" : String) ≠ "a" ∧
    (performIdempotentOperation (performIdempotentOperation ([] : List (IdempotencyRecord ℕ)) "t" "k" "a" 0 1 10).store "t" "k" "a" 1 2 20).outcome = IdemOutcome.ok 10 true ∧
    (performIdempotentOperation (performIdempotentOperation ([] : List (IdempotencyRecord ℕ)) "t" "k" "a" 0 1 10).store "t" "k" "b" 1 2 20).outcome = IdemOutcome.conflict "a" :=
  ⟨by decide, by decide,
    (performIdempotent_second_call "t" "k" "a" "b" 0 1 1 2 10 20 (by decide)).1,
    ((performIdempotent_second_call "t" "k" "a" "b" 0 1 1 2 10 20 (by decide)).2.2 (by decide)).1⟩

/-- C4: every document returned by the vector store search for user U has
userId = U, for any similarity function, stores, query vector and limit —
documents of other users are never returned. -/
theorem search_scoped (sim : List ℚ → List ℚ → ℚ)
    (allEmbeddings : List EmbeddingRecord) (allInsights : List MonthlyInsight)
    (userId : String) (queryEmbedding : List ℚ) (limitOpt : Option ℕ)
    (doc : RetrievalDocument)
    (hdoc : doc ∈ insightVectorStoreSearch sim allEmbeddings allInsights
      userId queryEmbedding limitOpt) :
    doc.userId = userId := by
  simp only [insightVectorStoreSearch] at hdoc
  split at hdoc
  · simp at hdoc
  · have hmem := List.mem_of_mem_take hdoc
    have hmem2 := List.mem_mergeSort.mp hmem
    obtain ⟨record, -, hbuild⟩ := List.mem_filterMap.mp hmem2
    rcases hfind : (listInsights allInsights userId).find?
        (fun entry => entry.id == record.id) with _ | insight <;>
      rw [hfind] at hbuild
    · simp at hbuild
    · simp only [Option.some_inj] at hbuild
      rw [← hbuild]

/-- C4 witness: a one-record store whose single document is returned. -/
theorem search_scoped_witness :
    c4Doc ∈ insightVectorStoreSearch (fun _ _ => 0) [c4Embedding] [c4Insight] "u" [1] none ∧
    c4Doc.userId = "u" := by
  have hmem : c4Doc ∈ insightVectorStoreSearch (fun _ _ => 0) [c4Embedding] [c4Insight] "u" [1] none := by
    simp [insightVectorStoreSearch, listInsights, c4Embedding, c4Insight, c4Doc,
      List.mergeSort, docScore]
  exact ⟨hmem, search_scoped _ _ _ _ _ _ _ hmem⟩

/-- C3 counterexample: with classified intent record_transaction at
confidence 0.2 < 0.4, the plan executor still invokes the registered
transactions.create tool handler (a success result lands in toolResults):
no step is demoted to a no-op. -/
theorem lowConfidence_tool_executed :
    ((1 : ℚ)/5 < 2/5) ∧
    (executePlan (buildPlan ⟨.record_transaction, 1/5, none⟩) c3Request
        ⟨.record_transaction, 1/5, none⟩ c3Deps).map ExecutionState.toolResults =
      .ok [c3ToolResult] := by
  constructor
  · norm_num
  · rfl

/-- C3 (amended): when the classified confidence is below 0.4 the chat route
attaches the single clarifying followup sentence, but the executor contains
no confidence check: for every confidence and every registered handler the
tool step of the record_transaction plan executes and its result is recorded
in toolResults. -/
theorem lowConfidence_followup_and_tool_runs (c : ℚ) (hc : c < 2/5)
    (r : ToolExecutionResult) :
    chatFollowup c = some clarifyFollowupSentence ∧
    (executePlan (buildPlan ⟨.record_transaction, c, none⟩) c3Request
        ⟨.record_transaction, c, none⟩ (c3DepsWith r)).map ExecutionState.toolResults =
      .ok [r] := by
  constructor
  · simp [chatFollowup, hc]
  · rfl

/-- C3 witness: confidence 0.2 with the concrete handler. -/
theorem lowConfidence_followup_and_tool_runs_witness :
    ((1 : ℚ)/5 < 2/5) ∧
    (chatFollowup (1/5) = some clarifyFollowupSentence ∧
      (executePlan (buildPlan ⟨.record_transaction, 1/5, none⟩) c3Request
          ⟨.record_transaction, 1/5, none⟩ (c3DepsWith c3ToolResult)).map
          ExecutionState.toolResults = .ok [c3ToolResult]) :=
  ⟨by norm_num, lowConfidence_followup_and_tool_runs (1/5) (by norm_num) c3ToolResult⟩

end Dompet
